import Mathlib

/-!
# Verification of the DASH_WEB data pipeline

Shallow embedding of the data-acquisition, forecasting, and persistence
pipeline of the repository (files `sensor_data.py`, `ml_model.py`,
`firebase_config.py`), together with theorems settling the frozen claims.

Conventions of the embedding:
* Calendar timestamps are `ℤ` epoch days (days since 1970-01-01); pandas
  calendar accessors (`dt.dayofyear`, `dt.month`, `dt.day`) are embedded as
  proleptic-Gregorian computations on epoch days.
* Float metric values are embedded as `ℚ`; a pandas `NaN` cell is `none` in
  an `Option ℚ` column, so `DataFrame.dropna` is a filter on `isSome`.
* numpy's global random generator is embedded as an abstract state `ℕ`.
  `np.random.seed 42` replaces that state by a fixed one, so every draw made
  after seeding comes from fixed streams indexed by draw position.  The
  concrete stream values stand in for the Mersenne-Twister output (which is
  opaque); every claim at issue is insensitive to the stream's values and
  depends only on the streams being fixed functions of the draw index.
* `requests` / the file system / Firestore are oracles passed in as explicit
  environment values; a raised exception is a distinguished oracle answer.
-/

namespace DashWeb

/-! ## Calendar arithmetic (embedding of pandas `dt.dayofyear` / `dt.month` / `dt.day`)

Proleptic Gregorian conversions between epoch days and civil dates, using
truncating division (`Int.tdiv`) as in the standard civil-from-days
algorithm. -/

/-- Year of the civil date of an epoch day. -/
def yearOfDate (z0 : ℤ) : ℤ :=
  let z := z0 + 719468
  let era := (if 0 ≤ z then z else z - 146096).tdiv 146097
  let doe := z - era * 146097
  let yoe := (doe - doe.tdiv 1460 + doe.tdiv 36524 - doe.tdiv 146096).tdiv 365
  let y := yoe + era * 400
  let doy := doe - (365 * yoe + yoe.tdiv 4 - yoe.tdiv 100)
  let mp := (5 * doy + 2).tdiv 153
  let m := if mp < 10 then mp + 3 else mp - 9
  if m ≤ 2 then y + 1 else y

/-- Month (1–12) of the civil date of an epoch day (pandas `dt.month`). -/
def monthOfDate (z0 : ℤ) : ℤ :=
  let z := z0 + 719468
  let era := (if 0 ≤ z then z else z - 146096).tdiv 146097
  let doe := z - era * 146097
  let yoe := (doe - doe.tdiv 1460 + doe.tdiv 36524 - doe.tdiv 146096).tdiv 365
  let doy := doe - (365 * yoe + yoe.tdiv 4 - yoe.tdiv 100)
  let mp := (5 * doy + 2).tdiv 153
  if mp < 10 then mp + 3 else mp - 9

/-- Day of month (1–31) of the civil date of an epoch day (pandas `dt.day`). -/
def dayOfMonth (z0 : ℤ) : ℤ :=
  let z := z0 + 719468
  let era := (if 0 ≤ z then z else z - 146096).tdiv 146097
  let doe := z - era * 146097
  let yoe := (doe - doe.tdiv 1460 + doe.tdiv 36524 - doe.tdiv 146096).tdiv 365
  let doy := doe - (365 * yoe + yoe.tdiv 4 - yoe.tdiv 100)
  let mp := (5 * doy + 2).tdiv 153
  doy - (153 * mp + 2).tdiv 5 + 1

/-- Epoch day of a civil date (inverse conversion, used for `dt.dayofyear`). -/
def daysFromCivil (y0 m d : ℤ) : ℤ :=
  let y := if m ≤ 2 then y0 - 1 else y0
  let era := (if 0 ≤ y then y else y - 399).tdiv 400
  let yoe := y - era * 400
  let mp := if 2 < m then m - 3 else m + 9
  let doy := (153 * mp + 2).tdiv 5 + d - 1
  let doe := yoe * 365 + yoe.tdiv 4 - yoe.tdiv 100 + doy
  era * 146097 + doe - 719468

/-- Ordinal day within the year, 1-based (pandas `dt.dayofyear`). -/
def dayOfYear (z : ℤ) : ℤ :=
  z - daysFromCivil (yearOfDate z) 1 1 + 1

/-! ## Data model

One row of the sensor `DataFrame`: a `date` plus the three tracked metric
columns.  Metric cells are `Option ℚ` so that `NaN` cells (and the `NaN`s
introduced by `shift`) are representable; a well-formed `ReadingSeries` in
the sense of the spec has every cell populated (`Complete`). -/

/-- One row of the sensor data frame. -/
structure Reading where
  date : ℤ
  temperature : Option ℚ
  humidity : Option ℚ
  pressure : Option ℚ
deriving DecidableEq, Repr

/-- The three tracked metrics (`self.metrics` in `PredictionModel`). -/
inductive Metric
  | temperature
  | humidity
  | pressure
deriving DecidableEq, Repr

/-- The metric cell of a reading. -/
def Reading.metric (r : Reading) : Metric → Option ℚ
  | Metric.temperature => r.temperature
  | Metric.humidity => r.humidity
  | Metric.pressure => r.pressure

/-- A reading with every metric cell populated (no `NaN`). -/
def Reading.CompleteRow (r : Reading) : Prop :=
  r.temperature.isSome = true ∧ r.humidity.isSome = true ∧ r.pressure.isSome = true

instance (r : Reading) : Decidable r.CompleteRow := by
  unfold Reading.CompleteRow; infer_instance

/-- A series with every metric cell of every row populated. -/
def Complete (df : List Reading) : Prop := ∀ r ∈ df, r.CompleteRow

instance (df : List Reading) : Decidable (Complete df) :=
  List.decidableBAll _ df

/-! ## Synthetic generator (`SensorDataManager._generate_simulated_data`)

Embedding of `sensor_data.py` lines 31–63.  `datetime.now()` is an explicit
input `now : ℤ` (its epoch day); `pd.date_range(end=now, periods=days,
freq='D')` is the run of `days` consecutive epoch days ending at `now`.
The numpy draws after `np.random.seed(42)` are fixed streams indexed by the
position of the draw within the seeded call (see the file header). -/

/-- Abstract stream of standard-normal draws of numpy's global generator
after `np.random.seed 42`; the `k`-th draw after seeding.  A fixed stand-in
for the opaque Mersenne-Twister values. -/
def normalStream (k : ℕ) : ℚ :=
  ((k * 2654435761 + 1013904223) % 1997 : ℕ) / 998 - 1

/-- Abstract stream of uniform `[0,1)` draws (for the anomaly mask) after the
normal draws of the seeded call. -/
def uniformStream (k : ℕ) : ℚ :=
  ((k * 22695477 + 1) % 1000 : ℕ) / 1000

/-- Abstract stream of `np.random.choice [-10, 10]` sign draws for the
anomalies, `true` meaning `+10`. -/
def choiceStream (k : ℕ) : Bool :=
  (k * 1103515245 + 12345) % 2 == 0

/-- Stand-in for `10 * sin (2 * pi * dayOfYear / 365)`: a fixed periodic
rational function of the day of year with period 365 and amplitude 10 (a
triangle wave).  The claims are insensitive to the exact wave shape; only
that it is a fixed function of the day of year matters. -/
def annualCycle (doy : ℤ) : ℚ :=
  let r := doy % 365
  if r ≤ 182 then 10 * ((r : ℚ) - 91) / 91 else 10 * (273 - (r : ℚ)) / 91

/-- Whether day index `i` of the generated frame is flagged anomalous
(`np.random.random(days) < 0.1`). -/
def anomalyFlag (i : ℕ) : Bool :=
  uniformStream i < 1 / 10

/-- Rank of day index `i` among the anomalous days, i.e. how many anomalous
days precede it; points into `choiceStream`, matching
`np.random.choice([-10, 10], size=sum(anomaly_mask))`. -/
def anomalyRank (i : ℕ) : ℕ :=
  ((List.range i).filter (fun j => anomalyFlag j)).length

/-- `SensorDataManager._generate_simulated_data` (`sensor_data.py` 31–63).
`rng` is numpy's global generator state at call time; the call begins by
reseeding with the fixed seed 42, so the body never consults `rng`.  `now`
is the epoch day of `datetime.now()`. -/
def _generate_simulated_data (rng : ℕ) (days : ℕ) (now : ℤ) : List Reading :=
  let _ := rng  -- discarded by np.random.seed(42)
  (List.range days).map (fun (i : ℕ) =>
    let date := now - (days : ℤ) + 1 + (i : ℤ)
    let cyc := annualCycle (dayOfYear date)
    let temperature := 25 + cyc + 3 * normalStream i
    let humidity0 := 60 + (-5 * cyc) + 5 * normalStream (days + i)
    let pressure := 1013 + 3 * normalStream (2 * days + i)
    let humidity := humidity0 + (1 / 5) * temperature
    let temperatureAnom :=
      if anomalyFlag i then
        temperature + (if choiceStream (anomalyRank i) then 10 else -10)
      else temperature
    { date := date
    , temperature := some temperatureAnom
    , humidity := some humidity
    , pressure := some pressure })

/-! ## Source orchestration (`SensorDataManager.get_sensor_data`)

Embedding of `sensor_data.py` 12–29 and 65–123.  The manager configuration
carries the constructor-time fields; the network and file system are
explicit oracles. -/

/-- Constructor-time configuration of `SensorDataManager` (`sensor_data.py`
12–17). -/
structure ManagerConfig where
  data_source : String
  api_endpoint : String
  api_key : String
deriving DecidableEq, Repr

/-- The answer of `requests.get` for the one request `_fetch_api_data`
issues: either some exception was raised along the way (network failure,
malformed JSON payload, unparsable dates — all captured by the broad
`except`), or a status code together with the parsed `data` array of the
JSON body. -/
inductive ApiResponse
  | raises
  | ok (status : ℕ) (data : List Reading)
deriving DecidableEq, Repr

/-- The file-system oracle for `_read_file_data`: whether the configured
data file exists, and, if reading and parsing succeed, its parsed rows
(`none` models a raised read/parse error). -/
structure FileSystem where
  fileExists : Bool
  content : Option (List Reading)
deriving DecidableEq, Repr

/-- `SensorDataManager._fetch_api_data` (`sensor_data.py` 65–105).  Falls
back to the synthetic generator when the endpoint or key is unconfigured,
when the request raises, when the status is not 200, or when the parsed
`data` array is empty; otherwise returns the parsed rows as they are. -/
def _fetch_api_data (cfg : ManagerConfig) (api : ApiResponse) (rng : ℕ)
    (now : ℤ) (days : ℕ) : List Reading :=
  if cfg.api_endpoint = "" ∨ cfg.api_key = "" then
    _generate_simulated_data rng days now
  else
    match api with
    | ApiResponse.raises => _generate_simulated_data rng days now
    | ApiResponse.ok status data =>
        if status = 200 ∧ data ≠ [] then data
        else _generate_simulated_data rng days now

/-- `SensorDataManager._read_file_data` (`sensor_data.py` 107–123).  Note
the fallback calls `_generate_simulated_data()` with its default
`days=100`. -/
def _read_file_data (fs : FileSystem) (rng : ℕ) (now : ℤ) : List Reading :=
  if fs.fileExists then
    match fs.content with
    | some df => df
    | none => _generate_simulated_data rng 100 now
  else
    _generate_simulated_data rng 100 now

/-- `SensorDataManager.get_sensor_data` (`sensor_data.py` 19–29): dispatch
on the configured `data_source`, defaulting to the synthetic generator for
any unknown source string. -/
def get_sensor_data (cfg : ManagerConfig) (fs : FileSystem)
    (api : ApiResponse) (rng : ℕ) (now : ℤ) (days : ℕ) : List Reading :=
  if cfg.data_source = "simulated" then
    _generate_simulated_data rng days now
  else if cfg.data_source = "api" then
    _fetch_api_data cfg api rng now days
  else if cfg.data_source = "file" then
    _read_file_data fs rng now
  else
    _generate_simulated_data rng days now

/-! ## Feature derivation (`PredictionModel.preprocess_data`)

Embedding of `ml_model.py` 15–33.  The input frame always carries the
`date` column and the three metric columns (the shape every pipeline series
has), so the `if 'date' in df.columns` / `if metric in df.columns` guards
are always taken.  `shift(1)` gives row `i` the metric cells of row `i-1`
(`NaN`, i.e. `none`, for row 0); `dropna` then drops every row with any
unpopulated cell. -/

/-- One row of the preprocessed frame: the original columns, the calendar
feature columns, and the three lag columns. -/
structure FeatureRow where
  date : ℤ
  day_of_year : ℤ
  month : ℤ
  day : ℤ
  temperature : Option ℚ
  humidity : Option ℚ
  pressure : Option ℚ
  temperature_lag1 : Option ℚ
  humidity_lag1 : Option ℚ
  pressure_lag1 : Option ℚ
deriving DecidableEq, Repr

/-- The metric column cell of a feature row. -/
def FeatureRow.metricVal (fr : FeatureRow) : Metric → Option ℚ
  | Metric.temperature => fr.temperature
  | Metric.humidity => fr.humidity
  | Metric.pressure => fr.pressure

/-- The feature row built from a reading `cur` whose predecessor in the
series is `prev`: calendar fields from `cur.date`, lag cells from `prev`. -/
def featureRowOf (prev cur : Reading) : FeatureRow :=
  { date := cur.date
  , day_of_year := dayOfYear cur.date
  , month := monthOfDate cur.date
  , day := dayOfMonth cur.date
  , temperature := cur.temperature
  , humidity := cur.humidity
  , pressure := cur.pressure
  , temperature_lag1 := prev.temperature
  , humidity_lag1 := prev.humidity
  , pressure_lag1 := prev.pressure }

/-- The calendar and lag columns: row `i` gets the metric cells of row
`i-1` as lag cells (`shift(1)`); the first row gets `none` lags. -/
def lagRows : Option Reading → List Reading → List FeatureRow
  | _, [] => []
  | prev, cur :: rest =>
      { date := cur.date
      , day_of_year := dayOfYear cur.date
      , month := monthOfDate cur.date
      , day := dayOfMonth cur.date
      , temperature := cur.temperature
      , humidity := cur.humidity
      , pressure := cur.pressure
      , temperature_lag1 := prev.bind (fun p => p.temperature)
      , humidity_lag1 := prev.bind (fun p => p.humidity)
      , pressure_lag1 := prev.bind (fun p => p.pressure) }
        :: lagRows (some cur) rest

/-- `df.dropna()`: keep the rows with every nullable cell populated. -/
def dropna (rows : List FeatureRow) : List FeatureRow :=
  rows.filter (fun fr =>
    fr.temperature.isSome && fr.humidity.isSome && fr.pressure.isSome &&
    fr.temperature_lag1.isSome && fr.humidity_lag1.isSome &&
    fr.pressure_lag1.isSome)

/-- `PredictionModel.preprocess_data` (`ml_model.py` 15–33). -/
def preprocess_data (df : List Reading) : List FeatureRow :=
  dropna (lagRows none df)

/-! ## Forecast model and driver (`PredictionModel.predict_next_values`)

Embedding of `ml_model.py` 61–102.  A fitted
`Pipeline([StandardScaler, LinearRegression])` is an affine map of the four
features `[day_of_year, month, day, metric_lag1]`: each feature is
standardized by the fitted mean/scale and the result fed to the fitted
linear form. -/

/-- Fitted per-metric model state: the scaler's means and scales and the
regressor's coefficients and intercept, one slot per feature
`[day_of_year, month, day, metric_lag1]`. -/
structure MetricModel where
  mean : Fin 4 → ℚ
  scale : Fin 4 → ℚ
  coef : Fin 4 → ℚ
  intercept : ℚ

/-- `model.predict` on one feature row `[day_of_year, month, day, lag]`. -/
def MetricModel.predictRow (m : MetricModel) (doy mo d : ℤ) (lag : ℚ) : ℚ :=
  let x : Fin 4 → ℚ := fun j =>
    if j = 0 then (doy : ℚ) else if j = 1 then (mo : ℚ)
    else if j = 2 then (d : ℚ) else lag
  (∑ j : Fin 4, m.coef j * ((x j - m.mean j) / m.scale j)) + m.intercept

/-- `self.models`: the per-metric model dictionary. -/
structure Models where
  temperature : Option MetricModel
  humidity : Option MetricModel
  pressure : Option MetricModel

/-- The model stored for a metric. -/
def Models.find (ms : Models) : Metric → Option MetricModel
  | Metric.temperature => ms.temperature
  | Metric.humidity => ms.humidity
  | Metric.pressure => ms.pressure

/-- `not self.models`: the model dictionary is empty. -/
def Models.isEmpty (ms : Models) : Bool :=
  ms.temperature.isNone && ms.humidity.isNone && ms.pressure.isNone

/-- The incremental per-metric prediction loop (`ml_model.py` 86–98): for
each future date in order, record the lag value used and the prediction
made, then feed the prediction forward as the next date's lag. -/
def forecastChain (m : MetricModel) : List ℤ → ℚ → List (ℚ × ℚ)
  | [], _ => []
  | d :: rest, lag =>
      let p := m.predictRow (dayOfYear d) (monthOfDate d) (dayOfMonth d) lag
      (lag, p) :: forecastChain m rest p

/-- `df['date'].max()` over the input frame (0 for an empty frame, which
the call site never reaches). -/
def maxDate (df : List Reading) : ℤ :=
  match df with
  | [] => 0
  | r :: rest => rest.foldl (fun acc x => max acc x.date) r.date

/-- The populated `(lag, prediction)` column pair for one metric
(`ml_model.py` 83–98): present only when the metric's model exists; seeded
with `processed_df[metric].iloc[-1]`. -/
def metricPreds (models : Models) (processed : List FeatureRow)
    (dates : List ℤ) (m : Metric) : Option (List (ℚ × ℚ)) :=
  (models.find m).bind fun mm =>
    processed.getLast?.bind fun lastRow =>
      (lastRow.metricVal m).map fun lag0 => forecastChain mm dates lag0

/-- One row of the returned forecast frame (`result_df`): the date column
plus whichever metric columns were populated. -/
structure ForecastRow where
  date : ℤ
  temperature : Option ℚ
  humidity : Option ℚ
  pressure : Option ℚ
deriving DecidableEq, Repr

/-- `PredictionModel.predict_next_values` (`ml_model.py` 61–102): `none`
when no model has been trained or the preprocessed frame is empty;
otherwise one row per future date, each metric column fed forward
autoregressively by `forecastChain`. -/
def predict_next_values (models : Models) (df : List Reading)
    (days_ahead : ℕ) : Option (List ForecastRow) :=
  if models.isEmpty then none
  else
    let processed := preprocess_data df
    if processed.isEmpty then none
    else
      let last_date := maxDate df
      let dates := (List.range days_ahead).map
        (fun (i : ℕ) => last_date + 1 + (i : ℤ))
      let tc := metricPreds models processed dates Metric.temperature
      let hc := metricPreds models processed dates Metric.humidity
      let pc := metricPreds models processed dates Metric.pressure
      some ((List.range days_ahead).map (fun (i : ℕ) =>
        { date := last_date + 1 + (i : ℤ)
        , temperature := tc.bind (fun l => (l[i]?).map Prod.snd)
        , humidity := hc.bind (fun l => (l[i]?).map Prod.snd)
        , pressure := pc.bind (fun l => (l[i]?).map Prod.snd) }))

/-! ## Persistence writer (`save_data_to_firebase`)

Embedding of `firebase_config.py` 29–95.  The Firestore client is an oracle
telling, for each retry round and batch index, whether that round's
`batch.commit()` succeeds or raises; the committed batches are recorded in
an append-only log (Firestore `document()` allocates a fresh document id
per written item, so nothing ever overwrites or rolls back an earlier
commit). -/

/-- One record/document handed to the writer: a `date` plus the metric
cells, and an optional pre-existing `timestamp` field. -/
structure Doc where
  date : ℤ
  temperature : Option ℚ
  humidity : Option ℚ
  pressure : Option ℚ
  timestamp : Option ℤ
deriving DecidableEq, Repr

/-- `if 'timestamp' not in item and 'date' in item: item['timestamp'] =
item['date']` (`firebase_config.py` 65–66); every record carries a `date`
column. -/
def normalizeDoc (d : Doc) : Doc :=
  if d.timestamp.isNone then { d with timestamp := some d.date } else d

/-- The Firestore environment: whether a client was obtained
(`initialize_firebase` returned non-`None`), and, per retry round `r` and
batch index `b`, whether that round's commit of batch `b` succeeds
(`false` = `batch.commit()` raises). -/
structure FirebaseEnv where
  connected : Bool
  commitOk : ℕ → ℕ → Bool

/-- One committed batch in the write log: the retry round, the batch index,
and the documents written. -/
structure CommittedBatch where
  round : ℕ
  batchIdx : ℕ
  docs : List Doc
deriving DecidableEq, Repr

/-- The observable outcome of `save_data_to_firebase`: the returned boolean
and the append-only log of committed batches in commit order. -/
structure SaveResult where
  success : Bool
  committed : List CommittedBatch
deriving DecidableEq, Repr

/-- The slicing `data_dict[start_idx:end_idx]` into consecutive chunks of
`batch_size` rows (`firebase_config.py` 52–57); total
`⌈len/batch_size⌉` batches.  The fuel argument is `data.length`, enough for
any positive batch size. -/
def batchSlicesAux (bs : ℕ) : ℕ → List Doc → List (List Doc)
  | 0, _ => []
  | _, [] => []
  | fuel + 1, data => data.take bs :: batchSlicesAux bs fuel (data.drop bs)

/-- The batches of one pass over the data. -/
def batchSlices (data : List Doc) (bs : ℕ) : List (List Doc) :=
  batchSlicesAux bs data.length data

/-- One retry round's inner batch loop (`firebase_config.py` 54–78),
starting at batch index `b`: normalize and commit each batch in order;
the first batch whose commit raises aborts the round.  Returns the batches
committed this round (index, documents) and the index of the failing batch,
if any. -/
def commitBatches (ok : ℕ → Bool) :
    ℕ → List (List Doc) → List (ℕ × List Doc) × Option ℕ
  | _, [] => ([], none)
  | b, s :: rest =>
      if ok b then
        let r := commitBatches ok (b + 1) rest
        ((b, s.map normalizeDoc) :: r.1, r.2)
      else ([], some b)

/-- The retry loop `for retry in range(max_retries)` (`firebase_config.py`
49–91): round `r` re-runs the whole batch loop from the first batch; a
round with no failure returns `True`; a failure with retries left moves to
the next round (after a backoff sleep); a failure on the last round returns
`False`.  `fuel` is the number of rounds still allowed, `r` the current
round number; `acc` the log of batches committed so far. -/
def saveLoop (ok : ℕ → ℕ → Bool) (slices : List (List Doc)) :
    ℕ → ℕ → List CommittedBatch → SaveResult
  | 0, _, acc => { success := false, committed := acc }
  | fuel + 1, r, acc =>
      let step := commitBatches (ok r) 0 slices
      let acc2 := acc ++ step.1.map (fun p =>
        { round := r, batchIdx := p.1, docs := p.2 })
      match step.2 with
      | none => { success := true, committed := acc2 }
      | some _ => saveLoop ok slices fuel (r + 1) acc2

/-- `save_data_to_firebase` (`firebase_config.py` 29–95): demo mode
(`db is None`) returns `False` with no writes; an empty record list returns
`True` with no writes; otherwise the batched, retried write loop runs. -/
def save_data_to_firebase (env : FirebaseEnv) (data : List Doc)
    (max_retries : ℕ := 3) (batch_size : ℕ := 50) : SaveResult :=
  if env.connected = false then { success := false, committed := [] }
  else if data = [] then { success := true, committed := [] }
  else saveLoop env.commitOk (batchSlices data batch_size) max_retries 0 []

/-! ## Concrete test fixtures

Concrete instances used to instantiate the theorems below on explicit
inputs. -/

/-- A concrete fitted per-metric model: identity scaling, prediction =
lag + 1. -/
def mmTest : MetricModel :=
  { mean := fun _ => 0
  , scale := fun _ => 1
  , coef := fun j => if j = 3 then 1 else 0
  , intercept := 1 }

/-- A trained model dictionary with `mmTest` for every metric. -/
def modelsTest : Models := ⟨some mmTest, some mmTest, some mmTest⟩

/-- A two-row complete series. -/
def dfTest : List Reading :=
  [⟨10, some 1, some 2, some 3⟩, ⟨11, some 4, some 5, some 6⟩]

/-- The three-day horizon dates after `dfTest`. -/
def datesTest : List ℤ :=
  (List.range 3).map (fun (i : ℕ) => maxDate dfTest + 1 + (i : ℤ))

/-- The temperature prediction chain over `datesTest`, seeded from the last
observed temperature of `dfTest`. -/
def chainTest : List (ℚ × ℚ) := forecastChain mmTest datesTest 4

/-- Three concrete documents (two batches at batch size 2). -/
def docsTest : List Doc :=
  [⟨1, some 1, none, none, none⟩, ⟨2, some 2, none, none, none⟩,
   ⟨3, some 3, none, none, none⟩]

/-! ## Helper lemmas -/

/-- A complete series decomposes: head row complete, tail complete. -/
theorem Complete.cons_iff {r : Reading} {rest : List Reading} :
    Complete (r :: rest) ↔ r.CompleteRow ∧ Complete rest := by
  constructor
  · intro h
    exact ⟨h r (by simp), fun x hx => h x (by simp [hx])⟩
  · rintro ⟨hr, hrest⟩ x hx
    rcases List.mem_cons.mp hx with h | h
    · simpa [h] using hr
    · exact hrest x h

/-- On a series whose rows are all complete and whose virtual predecessor is
complete, `dropna` keeps every shifted row: the preprocessed frame is the
consecutive-pairs frame. -/
theorem dropna_lagRows_some (p : Reading) (df : List Reading)
    (hp : p.CompleteRow) (hdf : Complete df) :
    dropna (lagRows (some p) df) =
      ((p :: df).zip df).map (fun q => featureRowOf q.1 q.2) := by
  induction df generalizing p with
  | nil => rfl
  | cons c rest ih =>
      obtain ⟨hc, hrest⟩ := Complete.cons_iff.mp hdf
      obtain ⟨hp1, hp2, hp3⟩ := hp
      obtain ⟨hc1, hc2, hc3⟩ := hc
      show dropna (featureRowOf p c :: lagRows (some c) rest) = _
      rw [dropna, List.filter_cons]
      simp only [featureRowOf, hp1, hp2, hp3, hc1, hc2, hc3, Bool.and_self,
        if_pos]
      rw [show List.filter _ (lagRows (some c) rest)
            = dropna (lagRows (some c) rest) from rfl]
      rw [ih c ⟨hc1, hc2, hc3⟩ hrest]
      rfl

/-- `preprocess_data` on a complete series is exactly the map of
`featureRowOf` over the consecutive pairs of the series. -/
theorem preprocess_complete (df : List Reading) (hdf : Complete df) :
    preprocess_data df = (df.zip df.tail).map (fun q => featureRowOf q.1 q.2) := by
  cases df with
  | nil => rfl
  | cons r rest =>
      obtain ⟨hr, hrest⟩ := Complete.cons_iff.mp hdf
      show dropna (lagRows none (r :: rest)) = _
      have h0 : lagRows none (r :: rest) =
          { date := r.date, day_of_year := dayOfYear r.date
          , month := monthOfDate r.date, day := dayOfMonth r.date
          , temperature := r.temperature, humidity := r.humidity
          , pressure := r.pressure, temperature_lag1 := none
          , humidity_lag1 := none, pressure_lag1 := none }
            :: lagRows (some r) rest := rfl
      rw [h0, dropna, List.filter_cons]
      simp only [Option.isSome_none, Bool.and_false, Bool.false_and,
        Bool.and_self, if_neg, Bool.false_eq_true, not_false_iff]
      rw [show List.filter _ (lagRows (some r) rest)
            = dropna (lagRows (some r) rest) from rfl]
      rw [dropna_lagRows_some r rest hr hrest]
      rfl

/-- The `i`-th entry of a zip from its components' entries. -/
theorem getElem?_zip_of {α β : Type} {l1 : List α} {l2 : List β} {i : ℕ}
    {a : α} {b : β} (h1 : l1[i]? = some a) (h2 : l2[i]? = some b) :
    (l1.zip l2)[i]? = some (a, b) :=
  List.getElem?_zip_eq_some.mpr ⟨h1, h2⟩

/-- The metric column of a derived feature row is the reading's own metric
cell. -/
theorem featureRowOf_metricVal (p c : Reading) (m : Metric) :
    (featureRowOf p c).metricVal m = c.metric m := by
  cases m <;> rfl

/-- The prediction chain yields one entry per future date. -/
theorem forecastChain_length (mm : MetricModel) :
    ∀ (ds : List ℤ) (lag : ℚ), (forecastChain mm ds lag).length = ds.length := by
  intro ds
  induction ds with
  | nil => intro lag; rfl
  | cons d rest ih => intro lag; simp [forecastChain, ih]

/-- The first entry of a nonempty prediction chain records the seed lag. -/
theorem forecastChain_head_lag (mm : MetricModel) (ds : List ℤ) (lag : ℚ)
    (h : 0 < (forecastChain mm ds lag).length) :
    ((forecastChain mm ds lag)[0]?).map Prod.fst = some lag := by
  cases ds with
  | nil => simp [forecastChain] at h
  | cons d rest => simp [forecastChain]

/-- Autoregression: each chain entry's lag is the previous entry's
prediction. -/
theorem forecastChain_lag_succ (mm : MetricModel) :
    ∀ (ds : List ℤ) (lag : ℚ) (i : ℕ),
      i + 1 < (forecastChain mm ds lag).length →
      ((forecastChain mm ds lag)[i + 1]?).map Prod.fst =
        ((forecastChain mm ds lag)[i]?).map Prod.snd := by
  intro ds
  induction ds with
  | nil => intro lag i h; simp [forecastChain] at h
  | cons d rest ih =>
      intro lag i h
      have hstep : forecastChain mm (d :: rest) lag =
          (lag, mm.predictRow (dayOfYear d) (monthOfDate d) (dayOfMonth d) lag)
            :: forecastChain mm rest
              (mm.predictRow (dayOfYear d) (monthOfDate d) (dayOfMonth d) lag) := rfl
      rw [hstep] at h ⊢
      cases i with
      | zero =>
          simp only [List.getElem?_cons_succ, List.getElem?_cons_zero,
            Option.map_some]
          apply forecastChain_head_lag
          simp only [List.length_cons] at h
          omega
      | succ j =>
          simp only [List.getElem?_cons_succ]
          apply ih
          simp only [List.length_cons] at h
          omega

/-- On a strictly date-sorted nonempty series, `df['date'].max()` is the
last row's date. -/
theorem maxDate_sorted :
    ∀ (df : List Reading),
      List.Pairwise (fun a b : Reading => a.date < b.date) df →
      ∀ r0, df.getLast? = some r0 → maxDate df = r0.date := by
  intro df
  induction df with
  | nil => intro _ r0 h; simp at h
  | cons a t ih =>
      intro hs r0 hlast
      cases t with
      | nil =>
          simp only [List.getLast?_singleton, Option.some_inj] at hlast
          subst hlast
          rfl
      | cons b t' =>
          rw [List.getLast?_cons_cons] at hlast
          have hab : a.date < b.date := (List.pairwise_cons.mp hs).1 b (by simp)
          have := ih (List.pairwise_cons.mp hs).2 r0 hlast
          show (b :: t').foldl (fun acc x => max acc x.date) a.date = r0.date
          show t'.foldl (fun acc x => max acc x.date) (max a.date b.date) = r0.date
          rw [max_eq_right (le_of_lt hab)]
          exact this

/-- The last consecutive pair of a series with at least two rows ends at
the series' last row. -/
theorem zip_tail_getLast :
    ∀ (l : List Reading) (x y : Reading),
      ∃ q : Reading × Reading,
        ((x :: y :: l).zip (y :: l)).getLast? = some q ∧
          (x :: y :: l).getLast? = some q.2 := by
  intro l
  induction l with
  | nil => exact fun x y => ⟨(x, y), rfl, rfl⟩
  | cons z l' ih =>
      intro x y
      obtain ⟨q, hq1, hq2⟩ := ih y z
      refine ⟨q, ?_, ?_⟩
      · rw [show (x :: y :: z :: l').zip (y :: z :: l')
              = (x, y) :: ((y :: z :: l').zip (z :: l')) from rfl]
        rw [show (y :: z :: l').zip (z :: l')
              = (y, z) :: ((z :: l').zip l') from rfl] at hq1 ⊢
        rw [List.getLast?_cons_cons]
        exact hq1
      · rw [List.getLast?_cons_cons]
        exact hq2

/-- The last preprocessed row of a complete series with at least two rows
carries the metric cells of the last reading. -/
theorem preprocess_getLast_metric (df : List Reading) (hc : Complete df)
    (h2 : 2 ≤ df.length) (m : Metric) :
    ((preprocess_data df).getLast?.bind (fun fr => fr.metricVal m)) =
      df.getLast?.bind (fun r => r.metric m) := by
  match df, hc, h2 with
  | a :: b :: t, hc, _ =>
      rw [preprocess_complete _ hc]
      rw [List.getLast?_map]
      obtain ⟨q, hq1, hq2⟩ := zip_tail_getLast t a b
      rw [show (a :: b :: t).tail = b :: t from rfl, hq1, hq2]
      simp [featureRowOf_metricVal]

/-- For a complete series with at least two rows and a present per-metric
model, the metric's forecast columns are populated: they are the
autoregressive chain seeded from the last preprocessed metric value. -/
theorem metricPreds_eq_chain (models : Models) (df : List Reading)
    (dates : List ℤ) (m : Metric) (mm : MetricModel) (v : ℚ)
    (hc : Complete df) (h2 : 2 ≤ df.length)
    (hm : models.find m = some mm)
    (hv : df.getLast?.bind (fun r => r.metric m) = some v) :
    metricPreds models (preprocess_data df) dates m =
      some (forecastChain mm dates v) := by
  have hlast := preprocess_getLast_metric df hc h2 m
  rw [hv] at hlast
  unfold metricPreds
  rw [hm]
  simp only [Option.some_bind]
  obtain ⟨fr, hfr⟩ : ∃ fr, (preprocess_data df).getLast? = some fr := by
    cases h : (preprocess_data df).getLast? with
    | none => rw [h] at hlast; simp at hlast
    | some fr => exact ⟨fr, rfl⟩
  rw [hfr] at hlast ⊢
  simp only [Option.some_bind] at hlast ⊢
  rw [hlast]
  rfl

/-- When every commit up to batch `k` succeeds and batch `k`'s commit
raises, one round starting at batch `start ≤ k` commits exactly the batches
`start, …, k-1` (normalized) and aborts at `k`. -/
theorem commitBatches_fail_char (k : ℕ) :
    ∀ (slices : List (List Doc)) (start : ℕ), start ≤ k →
      k < start + slices.length →
      commitBatches (fun b => decide (b < k)) start slices =
        (List.enumFrom start
          ((slices.take (k - start)).map (fun s => s.map normalizeDoc)),
         some k) := by
  intro slices
  induction slices with
  | nil => intro start h1 h2; simp at h2; omega
  | cons s rest ih =>
      intro start h1 h2
      rcases Nat.lt_or_ge start k with hlt | hge
      · rw [show commitBatches (fun b => decide (b < k)) start (s :: rest)
              = if decide (start < k) = true then
                  ((start, s.map normalizeDoc)
                      :: (commitBatches (fun b => decide (b < k)) (start + 1) rest).1,
                    (commitBatches (fun b => decide (b < k)) (start + 1) rest).2)
                else ([], some start) from rfl]
        rw [if_pos (by simpa using hlt)]
        rw [ih (start + 1) (by omega) (by simp at h2 ⊢; omega)]
        have hk : k - start = (k - (start + 1)) + 1 := by omega
        rw [hk, List.take_succ_cons, List.map_cons, List.enumFrom_cons]
      · have heq : start = k := by omega
        subst heq
        rw [show commitBatches (fun b => decide (b < start)) start (s :: rest)
              = if decide (start < start) = true then
                  ((start, s.map normalizeDoc)
                      :: (commitBatches (fun b => decide (b < start)) (start + 1) rest).1,
                    (commitBatches (fun b => decide (b < start)) (start + 1) rest).2)
                else ([], some start) from rfl]
        rw [if_neg (by simp)]
        simp

/-- When batch `k` fails in every round, the retry loop runs all its rounds,
commits batches `0, …, k-1` once per round, and ends unsuccessfully. -/
theorem saveLoop_fail_char (ok : ℕ → ℕ → Bool) (slices : List (List Doc))
    (k : ℕ) (hok : ∀ r b, ok r b = decide (b < k))
    (hk : k < slices.length) :
    ∀ (fuel r₀ : ℕ) (acc : List CommittedBatch),
      saveLoop ok slices fuel r₀ acc =
        { success := false
        , committed := acc ++ (List.range' r₀ fuel).flatMap (fun r =>
            (List.enumFrom 0
              ((slices.take k).map (fun s => s.map normalizeDoc))).map
              (fun p => { round := r, batchIdx := p.1, docs := p.2 })) } := by
  intro fuel
  induction fuel with
  | zero => intro r₀ acc; simp [saveLoop]
  | succ fuel ih =>
      intro r₀ acc
      have hfun : ok r₀ = fun b => decide (b < k) := funext (hok r₀)
      have hchar := commitBatches_fail_char k slices 0 (Nat.zero_le k)
        (by omega)
      rw [show saveLoop ok slices (fuel + 1) r₀ acc =
            (match (commitBatches (ok r₀) 0 slices).2 with
             | none => { success := true
                       , committed := acc ++ (commitBatches (ok r₀) 0 slices).1.map
                           (fun p => { round := r₀, batchIdx := p.1, docs := p.2 }) }
             | some _ => saveLoop ok slices fuel (r₀ + 1)
                 (acc ++ (commitBatches (ok r₀) 0 slices).1.map
                   (fun p => { round := r₀, batchIdx := p.1, docs := p.2 })))
          from rfl]
      rw [hfun, hchar]
      simp only [Nat.sub_zero]
      rw [ih (r₀ + 1)]
      rw [List.range'_succ, List.flatMap_cons, List.append_assoc]

/-! ## Claims -/

/-- C3 (counterexample): on a one-row series, `preprocess_data` does not
fail — `ml_model.py` 15–33 has no error path at all; it returns normally
with the empty feature-row frame (`shift` puts `NaN` in the single row's
lag cells and `dropna` removes it). -/
theorem preprocess_short_no_error :
    preprocess_data [⟨5, some 7, some 8, some 9⟩] = [] := by decide

/-- C3 (amended): for every input series with fewer than 2 rows, feature
derivation returns the empty feature-row sequence; no error is raised. -/
theorem preprocess_short_empty (df : List Reading) (h : df.length < 2) :
    preprocess_data df = [] := by
  match df, h with
  | [], _ => rfl
  | [r], _ =>
      show dropna (lagRows none [r]) = []
      simp [lagRows, dropna, List.filter_cons]

/-- Witness for C3's amended theorem at a concrete one-row series. -/
theorem preprocess_short_empty_witness :
    preprocess_data [⟨0, some 1, some 2, some 3⟩] = [] :=
  preprocess_short_empty _ (by decide)

/-- C5 (counterexample): two invocations of the synthetic generator with
the same day count (2) and the fixed seed but at different invocation times
(`datetime.now()` differs by a day) produce different series — the
timestamps come from the wall clock, so they are not bit-identical across
the two runs. -/
theorem generate_now_dependent :
    _generate_simulated_data 0 2 100 ≠ _generate_simulated_data 0 2 101 := by
  decide

/-- C5 (amended): the generator reseeds numpy with the fixed seed 42, so
its output is independent of the ambient random-generator state: two
invocations with the same day count and the same current date are
bit-identical, whatever the generator state was before each call. -/
theorem generate_rng_independent (rng₁ rng₂ : ℕ) (days : ℕ) (now : ℤ) :
    _generate_simulated_data rng₁ days now =
      _generate_simulated_data rng₂ days now := rfl

/-- C8: with a connected database, persisting an empty series performs no
document writes and reports success. -/
theorem save_empty_series_noop (env : FirebaseEnv) (mr bs : ℕ)
    (h : env.connected = true) :
    save_data_to_firebase env [] mr bs = { success := true, committed := [] } := by
  simp [save_data_to_firebase, h]

/-- Witness for C8 at a concrete connected environment. -/
theorem save_empty_series_noop_witness :
    save_data_to_firebase ⟨true, fun _ _ => true⟩ [] 3 50 =
      { success := true, committed := [] } :=
  save_empty_series_noop ⟨true, fun _ _ => true⟩ 3 50 rfl

/-- C9: forecasting with an empty model dictionary signals the
model-not-trained failure (the `None` return of `ml_model.py` 63–65) and
produces no forecast series. -/
theorem predict_untrained_none (models : Models) (df : List Reading)
    (h : ℕ) (hm : models.isEmpty = true) :
    predict_next_values models df h = none := by
  simp [predict_next_values, hm]

/-- Witness for C9 with no trained models. -/
theorem predict_untrained_none_witness :
    predict_next_values ⟨none, none, none⟩
      [⟨10, some 1, some 2, some 3⟩, ⟨11, some 4, some 5, some 6⟩] 7 = none :=
  predict_untrained_none _ _ 7 rfl

/-- C10: for every `data_source` outside `{simulated, api, file}`,
`get_sensor_data` returns the simulated generator's output for the
requested day count, identical to the `data_source = "simulated"` case. -/
theorem unknown_source_defaults_simulated (cfg : ManagerConfig)
    (fs : FileSystem) (api : ApiResponse) (rng : ℕ) (now : ℤ) (days : ℕ)
    (h1 : cfg.data_source ≠ "simulated") (h2 : cfg.data_source ≠ "api")
    (h3 : cfg.data_source ≠ "file") :
    get_sensor_data cfg fs api rng now days =
        _generate_simulated_data rng days now ∧
      get_sensor_data { cfg with data_source := "simulated" } fs api rng now
          days = _generate_simulated_data rng days now := by
  constructor
  · simp [get_sensor_data, h1, h2, h3]
  · simp [get_sensor_data]

/-- Witness for C10 at the unknown source string `firebase`. -/
theorem unknown_source_defaults_simulated_witness :
    get_sensor_data ⟨"firebase", "", ""⟩ ⟨false, none⟩ ApiResponse.raises
        0 0 1 = _generate_simulated_data 0 1 0 :=
  (unknown_source_defaults_simulated ⟨"firebase", "", ""⟩ ⟨false, none⟩
    ApiResponse.raises 0 0 1 (by decide) (by decide) (by decide)).1

/-- C2 (counterexample): with configured credentials, a 200 response whose
payload has exactly one row — fewer than 2 rows — is returned as-is by
`get_sensor_data`: `sensor_data.py` 86–97 only tests the payload for
emptiness, so the Synthetic series is NOT substituted for a too-short
result. -/
theorem acquire_single_row_kept :
    get_sensor_data ⟨"api", "e", "k"⟩ ⟨false, none⟩
        (ApiResponse.ok 200 [⟨20000, some 1, some 2, some 3⟩]) 0 20000 3 =
      [⟨20000, some 1, some 2, some 3⟩] ∧
    [(⟨20000, some 1, some 2, some 3⟩ : Reading)] ≠
      _generate_simulated_data 0 3 20000 := by
  constructor
  · decide
  · decide

/-- C2 (amended): `get_sensor_data` over the `api` source is total and
falls back to the synthetic series of the same day count on missing
credentials, a raised request/parse error, a non-200 status, or an empty
payload; but a non-empty payload — even a single row — is returned as-is
(there is no minimum-row check). -/
theorem fetch_api_fallback_spec (cfg : ManagerConfig) (fs : FileSystem)
    (rng : ℕ) (now : ℤ) (days : ℕ) :
    (∀ api, (cfg.api_endpoint = "" ∨ cfg.api_key = "") →
        _fetch_api_data cfg api rng now days =
          _generate_simulated_data rng days now) ∧
    (_fetch_api_data cfg ApiResponse.raises rng now days =
        _generate_simulated_data rng days now) ∧
    (∀ s d, (s ≠ 200 ∨ d = []) →
        _fetch_api_data cfg (ApiResponse.ok s d) rng now days =
          _generate_simulated_data rng days now) ∧
    (∀ d, d ≠ [] → cfg.api_endpoint ≠ "" → cfg.api_key ≠ "" →
        _fetch_api_data cfg (ApiResponse.ok 200 d) rng now days = d) ∧
    (∀ api, cfg.data_source = "api" →
        get_sensor_data cfg fs api rng now days =
          _fetch_api_data cfg api rng now days) := by
  refine ⟨?_, ?_, ?_, ?_, ?_⟩
  · intro api hcr
    unfold _fetch_api_data
    rw [if_pos hcr]
  · unfold _fetch_api_data
    by_cases hcr : cfg.api_endpoint = "" ∨ cfg.api_key = ""
    · rw [if_pos hcr]
    · rw [if_neg hcr]
  · intro s d hsd
    unfold _fetch_api_data
    by_cases hcr : cfg.api_endpoint = "" ∨ cfg.api_key = ""
    · rw [if_pos hcr]
    · rw [if_neg hcr]
      show (if s = 200 ∧ d ≠ [] then d else _) = _
      rw [if_neg (by rcases hsd with h | h <;> simp [h])]
  · intro d hd he hk
    unfold _fetch_api_data
    rw [if_neg (by simp [he, hk])]
    show (if (200 : ℕ) = 200 ∧ d ≠ [] then d else _) = d
    rw [if_pos ⟨rfl, hd⟩]
  · intro api hsrc
    unfold get_sensor_data
    rw [hsrc]
    simp

/-- Witness for C2's amended theorem: concrete credentials and a concrete
one-row 200 payload, returned unchanged. -/
theorem fetch_api_fallback_spec_witness :
    _fetch_api_data ⟨"api", "e", "k"⟩
        (ApiResponse.ok 200 [⟨20000, some 1, some 2, some 3⟩]) 0 20000 3 =
      [⟨20000, some 1, some 2, some 3⟩] :=
  ((fetch_api_fallback_spec ⟨"api", "e", "k"⟩ ⟨false, none⟩
      0 20000 3).2.2.2.1) [⟨20000, some 1, some 2, some 3⟩]
    (by decide) (by decide) (by decide)

/-- C4: on a complete, strictly date-sorted series with at least 2 rows,
feature derivation emits exactly `len - 1` rows, row `i` pairs reading
`i+1` with its immediate predecessor `i` (calendar fields from its own
timestamp, lag cells from the predecessor's metric values), and no emitted
row carries the series' first timestamp. -/
theorem preprocess_complete_spec (df : List Reading)
    (hc : Complete df) (h2 : 2 ≤ df.length)
    (hs : List.Pairwise (fun a b : Reading => a.date < b.date) df) :
    (preprocess_data df).length = df.length - 1 ∧
    (∀ i p c, df[i]? = some p → df[i + 1]? = some c →
      (preprocess_data df)[i]? = some (featureRowOf p c)) ∧
    (∀ fr ∈ preprocess_data df, ∀ r0, df[0]? = some r0 →
      fr.date ≠ r0.date) := by
  have hpp := preprocess_complete df hc
  refine ⟨?_, ?_, ?_⟩
  · rw [hpp]
    simp only [List.length_map, List.length_zip, List.length_tail]
    omega
  · intro i p c hp hcnext
    rw [hpp, List.getElem?_map,
      getElem?_zip_of hp (by rw [List.getElem?_tail]; exact hcnext)]
    rfl
  · intro fr hfr r0 h0
    rw [hpp] at hfr
    obtain ⟨⟨p, c⟩, hmem, hfc⟩ := List.mem_map.mp hfr
    have hcmem : c ∈ df.tail := (List.of_mem_zip hmem).2
    cases df with
    | nil => simp at h0
    | cons a rest =>
        have ha : a = r0 := by simpa using h0
        subst ha
        have hlt : a.date < c.date :=
          (List.pairwise_cons.mp hs).1 c (by simpa using hcmem)
        rw [← hfc]
        show c.date ≠ a.date
        omega

/-- Witness for C4 at a concrete two-row series: one feature row is
emitted. -/
theorem preprocess_complete_spec_witness :
    (preprocess_data
      [⟨0, some 1, some 1, some 1⟩, ⟨1, some 2, some 2, some 2⟩]).length = 1 :=
  (preprocess_complete_spec
    [⟨0, some 1, some 1, some 1⟩, ⟨1, some 2, some 2, some 2⟩]
    (by decide) (by decide) (by decide)).1

/-- C6: the forecast driver is deterministic, its per-metric columns are
the autoregressive chain in which the lag fed to day `i+1` is exactly the
prediction produced for day `i`, and the day-1 lag is seeded from the last
observed value of the metric (the metric cell of the series' last row). -/
theorem forecast_driver_lag_chain (models : Models) (df : List Reading)
    (days_ahead : ℕ) (m : Metric) (mm : MetricModel) (v : ℚ)
    (dates : List ℤ) (chain : List (ℚ × ℚ))
    (hc : Complete df) (h2 : 2 ≤ df.length)
    (hm : models.find m = some mm)
    (hv : df.getLast?.bind (fun r => r.metric m) = some v)
    (hdates : dates =
      (List.range days_ahead).map (fun (i : ℕ) => maxDate df + 1 + (i : ℤ)))
    (hchain : chain = forecastChain mm dates v) :
    metricPreds models (preprocess_data df) dates m = some chain ∧
    (∀ i, i + 1 < chain.length →
      (chain[i + 1]?).map Prod.fst = (chain[i]?).map Prod.snd) ∧
    (0 < days_ahead → (chain[0]?).map Prod.fst = some v) ∧
    predict_next_values models df days_ahead =
      predict_next_values models df days_ahead := by
  subst hchain
  refine ⟨?_, ?_, ?_, rfl⟩
  · exact metricPreds_eq_chain models df dates m mm v hc h2 hm hv
  · intro i hi
    exact forecastChain_lag_succ mm dates v i hi
  · intro hpos
    apply forecastChain_head_lag
    rw [forecastChain_length, hdates]
    simpa using hpos

/-- Witness for C6 at `dfTest` and the concrete trained model `mmTest`:
the temperature forecast columns equal the chain seeded from 4, the last
observed temperature. -/
theorem forecast_driver_lag_chain_witness :
    metricPreds modelsTest (preprocess_data dfTest) datesTest
      Metric.temperature = some chainTest :=
  (forecast_driver_lag_chain modelsTest dfTest 3 Metric.temperature mmTest 4
    datesTest chainTest (by decide) (by decide) rfl (by decide)
    rfl rfl).1

/-- C7 (counterexample): a non-empty input series with a single row yields
no forecast at all — `predict_next_values` returns `None` because the
preprocessed frame is empty (`ml_model.py` 70–71) — rather than a 3-row
forecast. -/
theorem predict_single_row_none :
    predict_next_values modelsTest [⟨10, some 1, some 2, some 3⟩] 3 = none := by
  decide

/-- C7 (amended): for a complete, strictly date-sorted input series with at
least 2 rows and a trained model for every metric, the forecast output has
exactly `N` rows, dated the `N` consecutive calendar days strictly after
the series' last date, with every metric column populated in every row. -/
theorem predict_next_values_shape (models : Models) (df : List Reading)
    (N : ℕ) (mt mh mp : MetricModel)
    (hc : Complete df) (h2 : 2 ≤ df.length)
    (hs : List.Pairwise (fun a b : Reading => a.date < b.date) df)
    (hmt : models.temperature = some mt) (hmh : models.humidity = some mh)
    (hmp : models.pressure = some mp) :
    ∃ rows, predict_next_values models df N = some rows ∧
      rows.length = N ∧
      (∀ r0, df.getLast? = some r0 → maxDate df = r0.date) ∧
      (∀ (i : ℕ) r, rows[i]? = some r →
        r.date = maxDate df + 1 + (i : ℤ) ∧
        r.temperature.isSome = true ∧ r.humidity.isSome = true ∧
        r.pressure.isSome = true) := by
  -- the last reading and its metric values
  obtain ⟨rlast, hrlast⟩ : ∃ rl, df.getLast? = some rl := by
    refine Option.isSome_iff_exists.mp (List.getLast?_isSome.mpr ?_)
    intro h
    subst h
    simp at h2
  have hrc : rlast.CompleteRow :=
    hc rlast (List.mem_of_mem_getLast? (by rw [hrlast]; rfl))
  have hvm : ∀ m : Metric, ∃ v, df.getLast?.bind (fun r => r.metric m) = some v := by
    intro m
    rw [hrlast]
    simp only [Option.some_bind]
    obtain ⟨h1, h2', h3⟩ := hrc
    cases m
    · exact Option.isSome_iff_exists.mp h1
    · exact Option.isSome_iff_exists.mp h2'
    · exact Option.isSome_iff_exists.mp h3
  obtain ⟨vt, hvt⟩ := hvm Metric.temperature
  obtain ⟨vh, hvh⟩ := hvm Metric.humidity
  obtain ⟨vp, hvp⟩ := hvm Metric.pressure
  -- the model dictionary is non-empty
  have hne : models.isEmpty = false := by
    unfold Models.isEmpty
    rw [hmt]
    rfl
  -- the preprocessed frame is non-empty
  have hlen : (preprocess_data df).length = df.length - 1 := by
    rw [preprocess_complete df hc]
    simp only [List.length_map, List.length_zip, List.length_tail]
    omega
  have hpne : (preprocess_data df).isEmpty = false := by
    rcases h : (preprocess_data df) with _ | ⟨x, xs⟩
    · rw [h] at hlen; simp at hlen; omega
    · rfl
  -- the horizon dates
  set dates : List ℤ :=
    (List.range N).map (fun (i : ℕ) => maxDate df + 1 + (i : ℤ)) with hdates
  have hct := metricPreds_eq_chain models df dates Metric.temperature mt vt
    hc h2 (by rw [show models.find Metric.temperature = models.temperature from rfl, hmt]) hvt
  have hch := metricPreds_eq_chain models df dates Metric.humidity mh vh
    hc h2 (by rw [show models.find Metric.humidity = models.humidity from rfl, hmh]) hvh
  have hcp := metricPreds_eq_chain models df dates Metric.pressure mp vp
    hc h2 (by rw [show models.find Metric.pressure = models.pressure from rfl, hmp]) hvp
  refine ⟨(List.range N).map (fun (i : ℕ) =>
    { date := maxDate df + 1 + (i : ℤ)
    , temperature := (metricPreds models (preprocess_data df) dates
        Metric.temperature).bind (fun l => (l[i]?).map Prod.snd)
    , humidity := (metricPreds models (preprocess_data df) dates
        Metric.humidity).bind (fun l => (l[i]?).map Prod.snd)
    , pressure := (metricPreds models (preprocess_data df) dates
        Metric.pressure).bind (fun l => (l[i]?).map Prod.snd) }), ?_, ?_, ?_, ?_⟩
  · show predict_next_values models df N = _
    simp only [predict_next_values, hne, hpne, Bool.false_eq_true, if_false]
  · simp
  · intro r0 h0
    exact maxDate_sorted df hs r0 h0
  · intro i r hr
    have hiN : i < N := by
      have := (List.getElem?_eq_some_iff.mp hr).1
      simpa using this
    rw [List.getElem?_map, List.getElem?_range hiN] at hr
    simp only [Option.map_some', Option.some.injEq] at hr
    subst hr
    have hchainlen : ∀ (mmx : MetricModel) (vx : ℚ),
        i < (forecastChain mmx dates vx).length := by
      intro mmx vx
      rw [forecastChain_length, hdates]
      simpa using hiN
    refine ⟨rfl, ?_, ?_, ?_⟩
    · rw [hct]
      simp only [Option.some_bind]
      rw [List.getElem?_eq_getElem (hchainlen mt vt)]
      rfl
    · rw [hch]
      simp only [Option.some_bind]
      rw [List.getElem?_eq_getElem (hchainlen mh vh)]
      rfl
    · rw [hcp]
      simp only [Option.some_bind]
      rw [List.getElem?_eq_getElem (hchainlen mp vp)]
      rfl

/-- Witness for C7's amended theorem: `dfTest` with trained models yields
some 3-row forecast. -/
theorem predict_next_values_shape_witness :
    (predict_next_values modelsTest dfTest 3).isSome = true := by
  obtain ⟨rows, h1, h2, h3, h4⟩ :=
    predict_next_values_shape modelsTest dfTest 3 mmTest mmTest mmTest
      (by decide) (by decide) (by decide) rfl rfl rfl
  rw [h1]
  rfl

/-- C1 (counterexample): three documents at batch size 2 with batch 1
failing on every attempt.  Batch 0 is committed in rounds 0, 1 and 2 —
three submissions of an already-committed batch, because the retry loop of
`firebase_config.py` 49–91 wraps the whole batch loop, restarting from the
first batch on every retry — and the operation reports a bare `False`
carrying no failed-batch index.  This refutes both "no already-committed
batch re-submitted" and "reports PartialFailure identifying the failed
batch index". -/
theorem save_resubmits_committed :
    (save_data_to_firebase ⟨true, fun _ b => decide (b < 1)⟩ docsTest 3 2).success
        = false ∧
      (save_data_to_firebase ⟨true, fun _ b => decide (b < 1)⟩ docsTest 3 2).committed.map
          (fun c => (c.round, c.batchIdx)) = [(0, 0), (1, 0), (2, 0)] := by
  decide

/-- C1 (amended): when a batch's commit raises on every attempt, the writer
retries the entire sequence of batches from the first batch, up to
`max_retries` passes; it then reports plain failure (a bare `False`, no
batch index), and every batch preceding the always-failing one is
committed once per pass — already-committed batches are re-submitted, not
skipped. -/
theorem save_retries_whole_pass (env : FirebaseEnv) (data : List Doc)
    (k max_retries batch_size : ℕ)
    (hconn : env.connected = true)
    (hok : ∀ r b, env.commitOk r b = decide (b < k))
    (hk : k < (batchSlices data batch_size).length) :
    save_data_to_firebase env data max_retries batch_size =
      { success := false
      , committed := (List.range max_retries).flatMap (fun r =>
          (List.enumFrom 0 (((batchSlices data batch_size).take k).map
            (fun s => s.map normalizeDoc))).map
            (fun p => { round := r, batchIdx := p.1, docs := p.2 })) } := by
  have hdata : data ≠ [] := by
    intro h
    subst h
    simp [batchSlices, batchSlicesAux] at hk
  unfold save_data_to_firebase
  rw [hconn]
  rw [if_neg (by simp)]
  rw [if_neg hdata]
  rw [saveLoop_fail_char env.commitOk (batchSlices data batch_size) k hok hk
    max_retries 0 []]
  rw [List.nil_append, List.range_eq_range']

/-- Witness for C1's amended theorem at the concrete always-failing second
batch: the operation reports failure. -/
theorem save_retries_whole_pass_witness :
    (save_data_to_firebase ⟨true, fun _ b => decide (b < 1)⟩ docsTest 3 2).success
      = false := by
  rw [save_retries_whole_pass ⟨true, fun _ b => decide (b < 1)⟩ docsTest 1 3 2
    rfl (fun _ _ => rfl) (by decide)]

end DashWeb
